import Mathlib

/-!
Verification development for the distribution-metadata module
(src/distutils2/metadata.py of the ryppl repository).

The Python source is shallowly embedded: the `DistributionMetadata` class
becomes a structure with explicit state passing, Python exceptions become an
`Except PyErr` result (or, for mutators whose partial effects survive a raised
exception, a `record x Option PyErr` pair mirroring the object state left
behind by the raise), and Python strings are Lean strings manipulated through
structurally recursive helpers over their character lists.

External collaborators (the RFC822 header parser from the email module, the
docutils prose validator, the predicate validator from distutils2.version, the
logging function warn, and the stdlib tokenize module) are outside the
repository; all of them except tokenize are irrelevant to the claims below.
The tokenize collaborator is modelled explicitly (see tokenizeMarker) because
marker evaluation feeds on its token stream.
-/

/-- Python exception taxonomy actually reachable from the embedded code.
MetadataConflictError is the module's own class (the spec calls it
MetadataVersionConflictError); the rest are builtin Python exceptions. -/
inductive PyErr where
  | metadataConflictError (msg : String)
  | metadataUnrecognizedVersionError (msg : String)
  | valueError (msg : String)
  | syntaxError (msg : String)
  | nameError (msg : String)
  | typeError (msg : String)
  | keyError (msg : String)
  | attributeError (msg : String)
  | indexError (msg : String)
  deriving Repr, DecidableEq

/-- A Python value stored in the record's field mapping: a string, a list of
strings, or None.  (These are the only shapes the module's own code ever
stores.) -/
inductive FieldVal where
  | str (s : String)
  | list (l : List String)
  | none
  deriving Repr, DecidableEq

/- ----------------------------------------------------------------
   Character-list helpers standing in for Python str methods.
   They are written by structural recursion so that concrete
   evaluations reduce inside the kernel.
   ---------------------------------------------------------------- -/

/-- Python value.split(sep) for a single-character separator:
"".split produces [""], separators at the ends produce empty pieces. -/
def splitChar (sep : Char) : List Char → List (List Char)
  | [] => [[]]
  | c :: cs =>
    let r := splitChar sep cs
    if c = sep then [] :: r
    else
      match r with
      | h :: t => (c :: h) :: t
      | [] => [[c]]

/-- Python str.split(',') lifted to String. -/
def pySplit (sep : Char) (s : String) : List String :=
  (splitChar sep s.data).map List.asString

/-- Python whitespace test used by str.strip (ASCII subset; markers are
ASCII). -/
def isPyWS (c : Char) : Bool :=
  c = ' ' ∨ c = '\t' ∨ c = '\n' ∨ c = '\r' ∨ c = '\x0b' ∨ c = '\x0c'

/-- Python str.strip() with no argument: drop whitespace from both ends. -/
def pyStrip (s : String) : String :=
  (((s.data.dropWhile isPyWS).reverse.dropWhile isPyWS).reverse).asString

/-- The module constant _STR_LIMIT is the two quote characters. -/
def isQuoteChar (c : Char) : Bool := c = '\'' ∨ c = '"'

/-- Python value.strip(_STR_LIMIT): drop quote characters from both ends. -/
def stripQuotes (s : String) : String :=
  (((s.data.dropWhile isQuoteChar).reverse.dropWhile isQuoteChar).reverse).asString

/-- Python str.lower() (per-character). -/
def pyLower (s : String) : String := (s.data.map Char.toLower).asString

/-- Python name.replace(c, d) for single characters. -/
def replaceChar (c d : Char) (s : String) : String :=
  (s.data.map (fun x => if x = c then d else x)).asString

/-- Python lexicographic string less-than (bytewise; inputs here are ASCII). -/
def pyStrLt : List Char → List Char → Bool
  | [], [] => false
  | [], _ :: _ => true
  | _ :: _, [] => false
  | a :: as, b :: bs => if a = b then pyStrLt as bs else decide (a < b)

/-- Python substring test x in y (character lists). -/
def isPrefixC : List Char → List Char → Bool
  | [], _ => true
  | _ :: _, [] => false
  | a :: as, b :: bs => a = b ∧ isPrefixC as bs

/-- Python x in y on strings: x occurs contiguously inside y. -/
def isSubstrC (xs : List Char) : List Char → Bool
  | [] => xs.isEmpty
  | l@(_ :: t) => isPrefixC xs l ∨ isSubstrC xs t

/- ----------------------------------------------------------------
   Field schema constants (metadata.py lines 96-201).
   ---------------------------------------------------------------- -/

def PKG_INFO_PREFERRED_VERSION : String := "1.0"

def _241_FIELDS : List String :=
  ["Metadata-Version", "Name", "Version", "Platform",
   "Summary", "Description",
   "Keywords", "Home-page", "Author", "Author-email",
   "License"]

def _314_FIELDS : List String :=
  ["Metadata-Version", "Name", "Version", "Platform",
   "Supported-Platform", "Summary", "Description",
   "Keywords", "Home-page", "Author", "Author-email",
   "License", "Classifier", "Download-URL", "Obsoletes",
   "Provides", "Requires"]

def _314_MARKERS : List String := ["Obsoletes", "Provides", "Requires"]

def _345_FIELDS : List String :=
  ["Metadata-Version", "Name", "Version", "Platform",
   "Supported-Platform", "Summary", "Description",
   "Keywords", "Home-page", "Author", "Author-email",
   "Maintainer", "Maintainer-email", "License",
   "Classifier", "Download-URL", "Obsoletes-Dist",
   "Provides-Dist", "Requires-Dist", "Requires-Python",
   "Requires-External"]

def _345_MARKERS : List String :=
  ["Provides-Dist", "Requires-Dist", "Requires-Python",
   "Obsoletes-Dist", "Requires-External", "Maintainer",
   "Maintainer-email"]

/-- The list _ALL_FIELDS is built by the module-level loop deduplicating the
concatenation of the three version field lists, preserving first occurrence
order. -/
def _ALL_FIELDS : List String :=
  (_241_FIELDS ++ _314_FIELDS ++ _345_FIELDS).foldl
    (fun acc f => if f ∈ acc then acc else acc ++ [f]) []

/-- The table _ATTR2FIELD: snake-case attribute aliases to canonical field names. -/
def _ATTR2FIELD : List (String × String) :=
  [("metadata_version", "Metadata-Version"),
   ("name", "Name"),
   ("version", "Version"),
   ("platform", "Platform"),
   ("supported_platform", "Supported-Platform"),
   ("description", "Summary"),
   ("long_description", "Description"),
   ("keywords", "Keywords"),
   ("url", "Home-page"),
   ("author", "Author"),
   ("author_email", "Author-email"),
   ("maintainer", "Maintainer"),
   ("maintainer_email", "Maintainer-email"),
   ("licence", "License"),
   ("classifier", "Classifier"),
   ("download_url", "Download-URL"),
   ("obsoletes_dist", "Obsoletes-Dist"),
   ("provides_dist", "Provides-Dist"),
   ("requires_dist", "Requires-Dist"),
   ("requires_python", "Requires-Python"),
   ("requires_external", "Requires-External"),
   ("requires", "Requires"),
   ("provides", "Provides"),
   ("obsoletes", "Obsoletes")]

def _PREDICATE_FIELDS : List String :=
  ["Requires-Dist", "Obsoletes-Dist", "Provides-Dist"]

def _LISTFIELDS : List String :=
  ["Platform", "Classifier", "Obsoletes",
   "Requires", "Provides", "Obsoletes-Dist",
   "Provides-Dist", "Requires-Dist", "Requires-Python",
   "Requires-External"]

def _ELEMENTSFIELD : List String := ["Keywords"]

def _UNICODEFIELDS : List String :=
  ["Author", "Maintainer", "Summary", "Description"]

/- ----------------------------------------------------------------
   Version inference (_best_version, lines 143-164).
   ---------------------------------------------------------------- -/

/-- Inner helper _has_marker of _best_version: some marker occurs among the
present keys. -/
def _has_marker (keys markers : List String) : Bool :=
  markers.any (fun m => m ∈ keys)

/-- Source _best_version: detect the best metadata version from the field keys
present; raises MetadataConflictError when both 1.1 and 1.2 marker fields
occur. -/
def _best_version (fields : List (String × FieldVal)) : Except PyErr String :=
  let keys := fields.map Prod.fst
  let is_1_1 := _has_marker keys _314_MARKERS
  let is_1_2 := _has_marker keys _345_MARKERS
  if is_1_1 ∧ is_1_2 then
    .error (.metadataConflictError "You used both 1.1 and 1.2 fields")
  else if ¬ is_1_1 ∧ ¬ is_1_2 then .ok PKG_INFO_PREFERRED_VERSION
  else if is_1_1 then .ok "1.1"
  else .ok "1.2"

/- ----------------------------------------------------------------
   Python dict as an association list: assignment keeps the position of an
   existing key and appends new keys; only key identity and lookup matter to
   the embedded code.
   ---------------------------------------------------------------- -/

/-- Python dict assignment d[k] = v: an existing key keeps its position and
gets the new value, a new key is appended. -/
def dictSet : List (String × FieldVal) → String → FieldVal →
    List (String × FieldVal)
  | [], k, v => [(k, v)]
  | (k', v') :: rest, k, v =>
    if k' = k then (k, v) :: rest else (k', v') :: dictSet rest k v

/-- Python del d[k] (all bindings of k; keys are unique in practice). -/
def dictDel (m : List (String × FieldVal)) (k : String) :
    List (String × FieldVal) :=
  m.filter (fun p => ¬ p.1 = k)

/-- Python dict lookup d.get(k) as an Option. -/
def dictGet (m : List (String × FieldVal)) (k : String) : Option FieldVal :=
  (m.find? (fun p => p.1 = k)).map Prod.snd

/- ----------------------------------------------------------------
   Token stream of the external tokenize collaborator (stdlib).
   ---------------------------------------------------------------- -/

/-- Token types delivered by the stdlib tokenizer that the marker machinery
distinguishes (eat rejects everything outside NAME, OP, STRING, ENDMARKER). -/
inductive TokType where
  | NAME
  | OP
  | STRING
  | ENDMARKER
  | NUMBER
  | ERRORTOKEN
  deriving Repr, DecidableEq

structure Token where
  type : TokType
  val : String
  deriving Repr, DecidableEq

def isIdentStart (c : Char) : Bool := c.isAlpha ∨ c = '_'

def isIdentChar (c : Char) : Bool := c.isAlphanum ∨ c = '_'

/-- Models the external stdlib tokenize collaborator on a one-line marker
with no trailing newline (which _interpret guarantees by stripping): the
token values it hands to _CHAIN.eat.  Identifiers and keywords come out as
NAME tokens, each operator or dot as one OP token, quoted strings as STRING
tokens with the quotes kept, numbers as NUMBER tokens, anything unexpected
as ERRORTOKEN (which eat then rejects as a SyntaxError, as in Python), and
a final ENDMARKER.  Fuel is the character count; every step consumes at
least one character, so the out-of-fuel arm (which also degrades to an
ERRORTOKEN) is never reached from tokenizeMarker. -/
def tokenizeAux : Nat → List Char → List Token
  | _, [] => [⟨.ENDMARKER, ""⟩]
  | 0, cs => [⟨.ERRORTOKEN, cs.asString⟩, ⟨.ENDMARKER, ""⟩]
  | fuel + 1, c :: cs =>
    if c = ' ' ∨ c = '\t' ∨ c = '\x0c' then tokenizeAux fuel cs
    else if isIdentStart c then
      ⟨.NAME, (c :: cs.takeWhile isIdentChar).asString⟩
        :: tokenizeAux fuel (cs.dropWhile isIdentChar)
    else if c.isDigit then
      ⟨.NUMBER, (c :: cs.takeWhile (fun x => x.isDigit ∨ x = '.')).asString⟩
        :: tokenizeAux fuel (cs.dropWhile (fun x => x.isDigit ∨ x = '.'))
    else if isQuoteChar c then
      match cs.dropWhile (fun x => ¬ x = c) with
      | q :: rest =>
          ⟨.STRING, (c :: (cs.takeWhile (fun x => ¬ x = c)) ++ [q]).asString⟩
            :: tokenizeAux fuel rest
      | [] => [⟨.ERRORTOKEN, (c :: cs).asString⟩, ⟨.ENDMARKER, ""⟩]
    else if c = '=' ∨ c = '!' ∨ c = '<' ∨ c = '>' then
      match cs with
      | '=' :: rest => ⟨.OP, (String.mk [c, '='])⟩ :: tokenizeAux fuel rest
      | _ =>
        if c = '!' then ⟨.ERRORTOKEN, "!"⟩ :: tokenizeAux fuel cs
        else ⟨.OP, String.mk [c]⟩ :: tokenizeAux fuel cs
    else if c = '.' ∨ c = ',' ∨ c = ';' ∨ c = '(' ∨ c = ')' ∨ c = ':' then
      ⟨.OP, String.mk [c]⟩ :: tokenizeAux fuel cs
    else ⟨.ERRORTOKEN, String.mk [c]⟩ :: tokenizeAux fuel cs

def tokenizeMarker (s : String) : List Token :=
  tokenizeAux s.data.length s.data

/- ----------------------------------------------------------------
   Restricted variable namespace (_VARS, lines 444-450).
   The process-wide runtime values are abstracted into a VarEnv record.
   In the source, the platform.version and platform.machine entries hold
   function objects (the call parentheses were forgotten); no claim below
   ever evaluates a comparison against those two entries, so their values
   are modelled as opaque strings.
   ---------------------------------------------------------------- -/

structure VarEnv where
  sys_platform : String
  python_version : String
  python_full_version : String
  os_name : String
  platform_version : String
  platform_machine : String
  deriving Repr, DecidableEq

def _VARS (env : VarEnv) : List (String × String) :=
  [("sys.platform", env.sys_platform),
   ("python_version", env.python_version),
   ("python_full_version", env.python_full_version),
   ("os.name", env.os_name),
   ("platform.version", env.platform_version),
   ("platform.machine", env.platform_machine)]

def _OPERATORS_KEYS : List String :=
  ["==", "!=", ">", ">=", "<", "<=", "in", "not in"]

/-- Source _operate: apply one of the _OPERATORS table entries (Python string
comparison semantics); an unknown key is a dict KeyError, though __call__
checks membership first. -/
def _operate (op : String) (x y : String) : Except PyErr Bool :=
  if op = "==" then .ok (x == y)
  else if op = "!=" then .ok (¬ x == y)
  else if op = ">" then .ok (pyStrLt y.data x.data)
  else if op = ">=" then .ok (¬ pyStrLt x.data y.data)
  else if op = "<" then .ok (pyStrLt x.data y.data)
  else if op = "<=" then .ok (¬ pyStrLt y.data x.data)
  else if op = "in" then .ok (isSubstrC x.data y.data)
  else if op = "not in" then .ok (¬ isSubstrC x.data y.data)
  else .error (.keyError op)

/- ----------------------------------------------------------------
   _Operation (lines 452-510): one comparison being assembled and then
   evaluated.  left/op/right start as None and are filled token by token.
   ---------------------------------------------------------------- -/

structure _Operation where
  left : Option String
  op : Option String
  right : Option String
  deriving Repr, DecidableEq

def emptyOp : _Operation := ⟨Option.none, Option.none, Option.none⟩

/-- Source _is_string: None or shorter than two characters is not a literal;
otherwise first and last character must be the same quote delimiter. -/
def _is_string (v? : Option String) : Bool :=
  match v? with
  | Option.none => false
  | some v =>
    match v.data with
    | [] => false
    | [_] => false
    | c :: cs =>
      match (c :: cs).getLast? with
      | some d => (c = '\'' ∧ d = '\'') ∨ (c = '"' ∧ d = '"')
      | Option.none => false

/-- Source _is_name and _check_name membership: the token is a key of _VARS (the
execution context is not consulted here, faithful to the source). -/
def _is_name (env : VarEnv) (v? : Option String) : Bool :=
  match v? with
  | Option.none => false
  | some v => (_VARS env).any (fun p => p.1 = v)

/-- Source _get_var: the execution context overrides the _VARS table.  Only called
under a _VARS membership guard, so the KeyError leg is unreachable and is
collapsed to the empty string. -/
def _get_var (ctx : List (String × String)) (env : VarEnv) (name : String) :
    String :=
  match ctx.find? (fun p => p.1 = name) with
  | some p => p.2
  | Option.none =>
    match (_VARS env).find? (fun p => p.1 = name) with
    | some p => p.2
    | Option.none => ""

/-- Source _convert: a _VARS key resolves through _get_var, anything else has its
quote characters stripped from both ends. -/
def _convert (ctx : List (String × String)) (env : VarEnv) (v : String) :
    String :=
  if (_VARS env).any (fun p => p.1 = v) then _get_var ctx env v
  else stripQuotes v

/-- The repr '%s %s %s' of an operation, used in error messages. -/
def opRepr (o : _Operation) : String :=
  o.left.getD "None" ++ " " ++ o.op.getD "None" ++ " " ++ o.right.getD "None"

/-- Source _Operation.__call__ (lines 494-510): exactly one side must be a quoted
string literal, the other must name a _VARS variable, the operator must be
known; then the comparison is performed on the converted sides. -/
def _Operation.call (ctx : List (String × String)) (env : VarEnv)
    (o : _Operation) : Except PyErr Bool := do
  let _ ← (if _is_string o.left then
    if _is_string o.right then
      (.error (.syntaxError ("This operation is not supported : \"" ++ opRepr o ++ "\"")) : Except PyErr Unit)
    else if ¬ _is_name env o.right then
      .error (.nameError (o.right.getD "None"))
    else .ok ()
  else
    if ¬ _is_string o.right then
      .error (.syntaxError ("This operation is not supported : \"" ++ opRepr o ++ "\""))
    else if ¬ _is_name env o.left then
      .error (.nameError (o.left.getD "None"))
    else .ok ())
  match o.op with
  | Option.none => .error (.typeError "Operator not supported \"None\"")
  | some op =>
    if ¬ op ∈ _OPERATORS_KEYS then
      .error (.typeError ("Operator not supported \"" ++ op ++ "\""))
    else
      match o.left, o.right with
      | some l, some r => _operate op (_convert ctx env l) (_convert ctx env r)
      | _, _ => .error (.attributeError "unreachable: a side is None after the checks")

/- ----------------------------------------------------------------
   _OR / _AND / _CHAIN (lines 512-600): the streaming parse.  The mutable
   ops list of _CHAIN becomes a list of nodes; an _AND/_OR object is a node
   whose left is the previously completed sub-expression (any node) and
   whose right slot, when filled, is the operation currently being built.
   ---------------------------------------------------------------- -/

inductive ChainNode where
  | op (o : _Operation)
  | andN (l : ChainNode) (r : Option _Operation)
  | orN (l : ChainNode) (r : Option _Operation)
  deriving Repr, DecidableEq

structure ChainState where
  ops : List ChainNode
  op_starting : Bool
  deriving Repr, DecidableEq

/-- The op_starting step of eat: a fresh _Operation is created and either
becomes the right slot of an unfilled trailing _AND/_OR or is appended. -/
def attachFresh (ops : List ChainNode) : List ChainNode :=
  match ops.getLast? with
  | Option.none => ops ++ [.op emptyOp]
  | some (.andN l Option.none) => ops.dropLast ++ [.andN l (some emptyOp)]
  | some (.orN l Option.none) => ops.dropLast ++ [.orN l (some emptyOp)]
  | some _ => ops ++ [.op emptyOp]

/-- Token accumulation into the operation under construction: before an
operator arrives the token extends left, afterwards it extends right
(dotted names are concatenated through their OP dot tokens). -/
def tokAccum (o : _Operation) (v : String) : _Operation :=
  match o.op with
  | Option.none =>
    match o.left with
    | Option.none => { o with left := some v }
    | some l => { o with left := some (l ++ v) }
  | some _ =>
    match o.right with
    | Option.none => { o with right := some v }
    | some r => { o with right := some (r ++ v) }

/-- Operator tokens: "in" after "not" merges into "not in". -/
def tokOpSet (o : _Operation) (v : String) : _Operation :=
  if v = "in" ∧ o.op = some "not" then { o with op := some "not in" }
  else { o with op := some v }

/-- The token dispatch at the end of eat (lines 578-594). -/
def applyTok (o : _Operation) (t : Token) : _Operation :=
  if ((t.type = .NAME ∨ t.type = .STRING) ∧ ¬ (t.val = "in" ∨ t.val = "not"))
      ∨ (t.type = .OP ∧ t.val = ".") then
    tokAccum o t.val
  else if t.type = .OP ∨ t.val = "in" ∨ t.val = "not" then
    tokOpSet o t.val
  else o

/-- Source _CHAIN.eat (lines 548-594).  Unsupported token types raise SyntaxError;
"and"/"or"/ENDMARKER close the current operation, the two keywords wrapping
the whole previously completed last node as the left operand of a fresh
unfilled _AND/_OR; any other supported token mutates the operation under
construction (the right slot of a filled trailing _AND/_OR, else the
trailing operation).  The two error legs besides the type check are
unreachable for streams that respect the op_starting discipline; they model
the IndexError/AttributeError Python would raise there. -/
def eat (st : ChainState) (t : Token) : Except PyErr ChainState :=
  if ¬ (t.type = .NAME ∨ t.type = .OP ∨ t.type = .STRING ∨ t.type = .ENDMARKER) then
    .error (.syntaxError ("Type not supported \"" ++ t.val ++ "\""))
  else
    let ops1 := if st.op_starting then attachFresh st.ops else st.ops
    if t.type = .ENDMARKER ∨ (t.type = .NAME ∧ (t.val = "and" ∨ t.val = "or")) then
      if t.type = .NAME ∧ t.val = "and" then
        match ops1.getLast? with
        | some last => .ok ⟨ops1.dropLast ++ [.andN last Option.none], true⟩
        | Option.none => .error (.indexError "pop from empty list")
      else if t.type = .NAME ∧ t.val = "or" then
        match ops1.getLast? with
        | some last => .ok ⟨ops1.dropLast ++ [.orN last Option.none], true⟩
        | Option.none => .error (.indexError "pop from empty list")
      else .ok ⟨ops1, true⟩
    else
      match ops1.getLast? with
      | Option.none => .error (.indexError "list index out of range")
      | some (.op o) => .ok ⟨ops1.dropLast ++ [.op (applyTok o t)], false⟩
      | some (.andN l (some r)) =>
          .ok ⟨ops1.dropLast ++ [.andN l (some (applyTok r t))], false⟩
      | some (.orN l (some r)) =>
          .ok ⟨ops1.dropLast ++ [.orN l (some (applyTok r t))], false⟩
      | some (.andN _ Option.none) => .error (.attributeError "_AND has no such attribute")
      | some (.orN _ Option.none) => .error (.attributeError "_OR has no such attribute")

/-- Evaluation of one node: _Operation.__call__, _AND.__call__
(left() and right()), _OR.__call__ (left() or right()), with Python's
short-circuiting; calling an unfilled right slot is calling None. -/
def evalNode (ctx : List (String × String)) (env : VarEnv) :
    ChainNode → Except PyErr Bool
  | .op o => o.call ctx env
  | .andN l r => do
    let b ← evalNode ctx env l
    if b then
      match r with
      | some ro => ro.call ctx env
      | Option.none => .error (.typeError "NoneType object is not callable")
    else pure false
  | .orN l r => do
    let b ← evalNode ctx env l
    if b then pure true
    else
      match r with
      | some ro => ro.call ctx env
      | Option.none => .error (.typeError "NoneType object is not callable")

/-- Source _CHAIN.result: every top-level node must evaluate true. -/
def chainResult (ctx : List (String × String)) (env : VarEnv) :
    List ChainNode → Except PyErr Bool
  | [] => .ok true
  | n :: rest => do
    let b ← evalNode ctx env n
    if b then chainResult ctx env rest else .ok false

/-- Feeding a token stream through a fresh _CHAIN and reading the result. -/
def interpretTokens (toks : List Token) (ctx : List (String × String))
    (env : VarEnv) : Except PyErr Bool := do
  let st ← toks.foldlM eat ⟨[], true⟩
  chainResult ctx env st.ops

/-- Source _interpret (lines 602-607): strip the marker, tokenize it, feed the
stream to a fresh chain, and read the result. -/
def _interpret (marker : String) (ctx : List (String × String))
    (env : VarEnv) : Except PyErr Bool :=
  interpretTokens (tokenizeMarker (pyStrip marker)) ctx env

/- ----------------------------------------------------------------
   DistributionMetadata (lines 204-423).
   ---------------------------------------------------------------- -/

structure DistributionMetadata where
  _fields : List (String × FieldVal)
  version : Option String
  platform_dependant : Bool
  execution_context : List (String × String)
  deriving Repr, DecidableEq

/-- Source __init__ with path=None: empty mapping, no version.  (Construction from
a path goes through the external header parser and read_file.) -/
def DistributionMetadata.init (pd : Bool) (ctx : List (String × String)) :
    DistributionMetadata :=
  ⟨[], Option.none, pd, ctx⟩

/-- Source _convert_name (lines 243-249): canonical names pass through; otherwise
the name is lowercased with hyphens turned to underscores and looked up in
the alias table, falling back to the transformed name itself. -/
def _convert_name (name : String) : String :=
  if name ∈ _ALL_FIELDS then name
  else
    let n := pyLower (replaceChar '-' '_' name)
    match _ATTR2FIELD.find? (fun p => p.1 = n) with
    | some p => p.2
    | Option.none => n

/-- Source _default_value (lines 251-254). -/
def _default_value (name : String) : FieldVal :=
  if name ∈ _LISTFIELDS ++ _ELEMENTSFIELD then .list [] else .str "UNKNOWN"

/-- Python repr of a list of strings, for the str() leg of _encode_field. -/
def pyListRepr (l : List String) : String :=
  "[" ++ String.intercalate ", " (l.map (fun s => "'" ++ s ++ "'")) ++ "]"

/-- The string produced by _encode_field (lines 228-231): a str (or unicode)
stays textually itself; str() renders a list as its repr and None as
"None" (neither shape is reachable from the claims below). -/
def encodeFieldStr : FieldVal → String
  | .str s => s
  | .list l => pyListRepr l
  | .none => "None"

def _encode_field (v : FieldVal) : FieldVal := .str (encodeFieldStr v)

/-- The write-side Description encoding (line 340): each newline becomes
newline, seven spaces, and a pipe (str.replace, left to right). -/
def expandDescription : List Char → List Char
  | [] => []
  | '\n' :: rest =>
    '\n' :: ' ' :: ' ' :: ' ' :: ' ' :: ' ' :: ' ' :: ' ' :: '|' :: expandDescription rest
  | c :: rest => c :: expandDescription rest

/-- The read-side stripping _LINE_PREFIX.sub (lines 102, 288-289), source
name _remove_line_prefix: each occurrence of newline, seven spaces and a
pipe collapses back to a newline; like re.sub, scanning resumes after the
replacement. -/
def removeLineCont : List Char → List Char
  | '\n' :: ' ' :: ' ' :: ' ' :: ' ' :: ' ' :: ' ' :: ' ' :: '|' :: rest =>
      '\n' :: removeLineCont rest
  | c :: rest => c :: removeLineCont rest
  | [] => []

def descriptionWriteEncode (s : String) : String :=
  (expandDescription s.data).asString

def removeLineContStr (s : String) : String :=
  (removeLineCont s.data).asString

/-- Source _platform (lines 282-286): no filtering unless the record is platform
dependant and the value contains a semicolon; then the value must split at
the single semicolon into value and marker, and the marker is interpreted
in the record's execution context.  More than one semicolon makes the
two-way unpack a ValueError; a list or None reaching the semicolon test or
the split raises like Python would. -/
def _platform (env : VarEnv) (pd : Bool) (ctx : List (String × String))
    (value : FieldVal) : Except PyErr (Bool × FieldVal) :=
  if ¬ pd then .ok (true, value)
  else
    match value with
    | .str s =>
      if ¬ s.data.contains ';' then .ok (true, .str s)
      else
        match pySplit ';' s with
        | [v, m] => do
          let b ← _interpret m ctx env
          .ok (b, .str v)
        | _ => .error (.valueError "too many values to unpack")
    | .list l =>
      if ¬ l.contains ";" then .ok (true, .list l)
      else .error (.attributeError "list object has no attribute split")
    | .none => .error (.typeError "argument of type NoneType is not iterable")

/-- The value coercion inside set (lines 357-363), applied to the already
converted name: list and element fields split a comma string into a list,
unicode fields are encoded and Description additionally has the line
continuations stripped. -/
def setCoerce (name : String) (value : FieldVal) : FieldVal :=
  if name ∈ _LISTFIELDS ++ _ELEMENTSFIELD then
    match value with
    | .str s => FieldVal.list (pySplit ',' s)
    | v => v
  else if name ∈ _UNICODEFIELDS then
    match _encode_field value with
    | .str s =>
      if name = "Description" then FieldVal.str (removeLineContStr s)
      else FieldVal.str s
    | v => v
  else value

/-- set (lines 346-367).  The predicate-field validation (lines 352-356)
calls the external predicate validator and only logs warnings, touching no
record state, so it is omitted.  The mutation stores the coerced value and
then recomputes the best version; a conflict raises after the store, so the
returned record keeps the new field mapping with the old version.  -/
def DistributionMetadata.set (r : DistributionMetadata) (name : String)
    (value : FieldVal) : DistributionMetadata × Option PyErr :=
  let name := _convert_name name
  let fields' := dictSet r._fields name (setCoerce name value)
  match _best_version fields' with
  | .error e => ({ r with _fields := fields' }, some e)
  | .ok ver =>
    ({ r with _fields := dictSet fields' "Metadata-Version" (.str ver),
              version := some ver }, Option.none)

/-- Source __delitem__ (lines 239-241): delete the raw key (no name conversion),
then recompute the best version. -/
def DistributionMetadata.delitem (r : DistributionMetadata) (name : String) :
    DistributionMetadata × Option PyErr :=
  if ¬ r._fields.any (fun p => p.1 = name) then (r, some (.keyError name))
  else
    let fields' := dictDel r._fields name
    match _best_version fields' with
    | .error e => ({ r with _fields := fields' }, some e)
    | .ok ver =>
      ({ r with _fields := dictSet fields' "Metadata-Version" (.str ver),
                version := some ver }, Option.none)

/-- The per-element filtering loop of get's list branch (lines 381-387):
elements whose marker fails are dropped, the others are str()-encoded. -/
def listFilterPlat (env : VarEnv) (pd : Bool) (ctx : List (String × String)) :
    List String → Except PyErr (List String)
  | [] => .ok []
  | v :: rest => do
    let (valid, v') ← _platform env pd ctx (.str v)
    let tail ← listFilterPlat env pd ctx rest
    if valid then .ok (encodeFieldStr v' :: tail) else .ok tail

/-- The shared tail of get (lines 395-398): filter the stored value through
_platform and return it, or None when the marker came out false. -/
def getScalarTail (env : VarEnv) (r : DistributionMetadata)
    (stored : FieldVal) : Except PyErr FieldVal := do
  let (valid, value) ← _platform env r.platform_dependant r.execution_context stored
  if valid then .ok value else .ok FieldVal.none

/-- get (lines 369-398).  Unicode fields are returned encoded with no
filtering; list fields are filtered element by element (a stray string
value would be iterated character by character, as in Python); the Keywords
element field is filtered, then split on commas when it is a string —
otherwise control falls through to the scalar tail, which filters the
stored value and yields None on a false marker. -/
def DistributionMetadata.get (env : VarEnv) (r : DistributionMetadata)
    (name : String) : Except PyErr FieldVal :=
  let name := _convert_name name
  match dictGet r._fields name with
  | Option.none => .ok (_default_value name)
  | some stored =>
    if name ∈ _UNICODEFIELDS then .ok (_encode_field stored)
    else if name ∈ _LISTFIELDS then
      match stored with
      | .none => .ok (.list [])
      | .list vals => do
        let res ← listFilterPlat env r.platform_dependant r.execution_context vals
        .ok (.list res)
      | .str s => do
        let res ← listFilterPlat env r.platform_dependant r.execution_context
          (s.data.map (fun c => String.mk [c]))
        .ok (.list res)
    else if name ∈ _ELEMENTSFIELD then do
      let (valid, value) ← _platform env r.platform_dependant r.execution_context stored
      if ¬ valid then .ok (.list [])
      else
        match value with
        | .str s => .ok (.list (pySplit ',' s))
        | _ => getScalarTail env r stored
    else getScalarTail env r stored

/- ----------------------------------------------------------------
   Helper lemmas.
   ---------------------------------------------------------------- -/

set_option maxRecDepth 100000

theorem ok_bind {α β : Type} (x : α) (f : α → Except PyErr β) :
    (Except.ok x >>= f : Except PyErr β) = f x := rfl

theorem bind_error_cases {α β : Type} (x : Except PyErr α)
    (f : α → Except PyErr β) (e : PyErr) (h : (x >>= f) = .error e) :
    x = .error e ∨ ∃ a, x = .ok a ∧ f a = .error e := by
  cases x with
  | error e' =>
    left
    have hred : (Except.error e' >>= f : Except PyErr β) = .error e' := rfl
    rw [hred] at h
    injection h with h'
    rw [h']
  | ok a =>
    right
    exact ⟨a, rfl, by rw [ok_bind] at h; exact h⟩

theorem dictGet_dictSet_self (m : List (String × FieldVal)) (k : String)
    (v : FieldVal) : dictGet (dictSet m k v) k = some v := by
  induction m with
  | nil => simp [dictSet, dictGet]
  | cons p rest ih =>
    obtain ⟨k', v'⟩ := p
    by_cases h : k' = k
    · simp [dictSet, dictGet, h]
    · simp only [dictSet, if_neg h]
      simp only [dictGet, List.find?] at ih ⊢
      simp [h, ih]

theorem mem_keys_dictSet (m : List (String × FieldVal)) (k a : String)
    (v : FieldVal) :
    a ∈ (dictSet m k v).map Prod.fst ↔ a = k ∨ a ∈ m.map Prod.fst := by
  induction m with
  | nil => simp [dictSet]
  | cons p rest ih =>
    obtain ⟨k', v'⟩ := p
    by_cases h : k' = k
    · subst h
      simp [dictSet]
    · simp only [dictSet, if_neg h, List.map_cons, List.mem_cons, ih]
      tauto

theorem best_version_error_shape (fields : List (String × FieldVal))
    (e : PyErr) (h : _best_version fields = .error e) :
    e = .metadataConflictError "You used both 1.1 and 1.2 fields" := by
  simp only [_best_version] at h
  split_ifs at h
  simp_all

theorem length_splitChar (sep : Char) (l : List Char) :
    (splitChar sep l).length = l.count sep + 1 := by
  induction l with
  | nil => simp [splitChar]
  | cons c cs ih =>
    by_cases h : c = sep
    · subst h
      simp [splitChar, ih, List.count_cons]
    · cases hr : splitChar sep cs with
      | nil => rw [hr] at ih; simp at ih
      | cons x xs =>
        rw [hr] at ih
        simp only [List.length_cons] at ih
        simp [splitChar, h, hr, List.count_cons]
        omega

theorem list_shape3 {α : Type} (l : List α) (h : 3 ≤ l.length) :
    ∃ a b c t, l = a :: b :: c :: t := by
  rcases l with _ | ⟨a, l⟩
  · simp at h
  rcases l with _ | ⟨b, l⟩
  · simp at h
  rcases l with _ | ⟨c, t⟩
  · simp at h
  exact ⟨a, b, c, t, rfl⟩

theorem list_shape2 {α : Type} (l : List α) (h : l.length = 2) :
    ∃ a b, l = [a, b] := by
  rcases l with _ | ⟨a, l⟩
  · simp at h
  rcases l with _ | ⟨b, l⟩
  · simp at h
  rcases l with _ | ⟨c, t⟩
  · exact ⟨a, b, rfl⟩
  · simp at h

/- ----------------------------------------------------------------
   C1: atomicity of a conflicting set.
   ---------------------------------------------------------------- -/

/-- A record carrying the 1.1-marker field Requires, as left by an earlier
successful mutation. -/
def rConflict : DistributionMetadata :=
  ⟨[("Requires", .list ["x"]), ("Metadata-Version", .str "1.1")],
   some "1.1", false, []⟩

/-- C1 counterexample: setting the 1.2-marker field Requires-Dist on a
record holding the 1.1-marker field Requires raises
MetadataConflictError, yet the field mapping after the failed call is not
the mapping from before the call: the offending key has been stored.  So
the mutation is not rejected atomically. -/
theorem set_conflict_mutates_fields_cex :
    (rConflict.set "Requires-Dist" (.list ["y"])).2
        = some (.metadataConflictError "You used both 1.1 and 1.2 fields")
      ∧ (rConflict.set "Requires-Dist" (.list ["y"])).1._fields
          ≠ rConflict._fields := by
  refine ⟨rfl, ?_⟩
  decide

/-- C1 amended: when set raises the version conflict, the version attribute
(and so the Metadata-Version entry) is left at its previous value, but the
field mapping has already been updated with the offending key: the store
happens before the version check, so the mutation is partially applied. -/
theorem set_conflict_preserves_version_not_fields
    (r : DistributionMetadata) (n : String) (v : FieldVal) (e : PyErr)
    (h : (r.set n v).2 = some e) :
    (r.set n v).1.version = r.version
      ∧ (r.set n v).1._fields
          = dictSet r._fields (_convert_name n) (setCoerce (_convert_name n) v)
      ∧ e = .metadataConflictError "You used both 1.1 and 1.2 fields" := by
  cases hbv : _best_version
      (dictSet r._fields (_convert_name n) (setCoerce (_convert_name n) v)) with
  | error e' =>
    have hset : r.set n v
        = ({ r with _fields :=
              dictSet r._fields (_convert_name n) (setCoerce (_convert_name n) v) },
           some e') := by
      simp [DistributionMetadata.set, hbv]
    rw [hset] at h ⊢
    injection h with h'
    subst h'
    exact ⟨rfl, rfl, best_version_error_shape _ _ hbv⟩
  | ok ver =>
    have hset : (r.set n v).2 = Option.none := by
      simp [DistributionMetadata.set, hbv]
    rw [hset] at h
    cases h

/-- C1 witness: the amended theorem applied to the concrete conflicting
record. -/
theorem set_conflict_preserves_version_not_fields_witness :
    (rConflict.set "Requires-Dist" (.list ["y"])).1.version
        = rConflict.version
      ∧ (rConflict.set "Requires-Dist" (.list ["y"])).1._fields
          = dictSet rConflict._fields "Requires-Dist" (.list ["y"]) := by
  have h := set_conflict_preserves_version_not_fields rConflict
    "Requires-Dist" (.list ["y"])
    (.metadataConflictError "You used both 1.1 and 1.2 fields") rfl
  exact ⟨h.1, h.2.1⟩

/- ----------------------------------------------------------------
   C2: canonicalization of unknown names.
   ---------------------------------------------------------------- -/

/-- C2 counterexample: the unknown field name "Custom-Field" (neither a
canonical field name nor a snake-case alias) does not canonicalize to
itself: it comes back lowercased with the hyphen replaced. -/
theorem convert_name_unknown_not_identity_cex :
    _convert_name "Custom-Field" = "custom_field"
      ∧ "custom_field" ≠ "Custom-Field" := by
  refine ⟨rfl, ?_⟩
  decide

/-- C2 amended: a name that is not canonical canonicalizes to its
lowercased, hyphen-to-underscore form (after alias lookup on that form
fails); it is returned unchanged exactly when it already equals that
normalized form. -/
theorem convert_name_unknown_normalizes (name : String)
    (h1 : name ∉ _ALL_FIELDS)
    (h2 : ∀ p ∈ _ATTR2FIELD, p.1 ≠ pyLower (replaceChar '-' '_' name)) :
    _convert_name name = pyLower (replaceChar '-' '_' name)
      ∧ (pyLower (replaceChar '-' '_' name) = name →
          _convert_name name = name) := by
  have hfind : _ATTR2FIELD.find?
      (fun p => p.1 = pyLower (replaceChar '-' '_' name)) = Option.none := by
    apply List.find?_eq_none.mpr
    intro p hp
    simpa using h2 p hp
  constructor
  · simp [_convert_name, h1, hfind]
  · intro hfix
    have hfind' := hfind
    rw [hfix] at hfind'
    simp [_convert_name, h1, hfind', hfix]

/-- C2 witness: amended theorem at the concrete unknown name. -/
theorem convert_name_unknown_normalizes_witness :
    _convert_name "Custom-Field" = pyLower (replaceChar '-' '_' "Custom-Field") :=
  (convert_name_unknown_normalizes "Custom-Field" (by decide) (by decide)).1

/- ----------------------------------------------------------------
   C9: the Metadata-Version entry after construction and mutation.
   ---------------------------------------------------------------- -/

/-- C9 counterexample: a freshly constructed record has an empty field
mapping — no Metadata-Version key — and no version attribute, so the
claimed invariant fails at construction time. -/
theorem init_lacks_metadata_version_cex :
    dictGet (DistributionMetadata.init false [])._fields "Metadata-Version"
        = Option.none
      ∧ (DistributionMetadata.init false []).version = Option.none :=
  ⟨rfl, rfl⟩

/-- C9 amended: after every successful set and every successful deletion
the field mapping holds the key Metadata-Version with exactly the record's
inferred version; only bare construction lacks the entry (the mapping is
empty until the first mutation). -/
theorem mutation_reestablishes_metadata_version :
    (∀ (r : DistributionMetadata) (n : String) (v : FieldVal),
      (r.set n v).2 = Option.none →
      ∃ ver, (r.set n v).1.version = some ver
        ∧ dictGet (r.set n v).1._fields "Metadata-Version"
            = some (.str ver))
    ∧ (∀ (r : DistributionMetadata) (n : String),
      (r.delitem n).2 = Option.none →
      ∃ ver, (r.delitem n).1.version = some ver
        ∧ dictGet (r.delitem n).1._fields "Metadata-Version"
            = some (.str ver)) := by
  constructor
  · intro r n v h
    cases hbv : _best_version
        (dictSet r._fields (_convert_name n) (setCoerce (_convert_name n) v)) with
    | error e' =>
      have : (r.set n v).2 = some e' := by simp [DistributionMetadata.set, hbv]
      rw [this] at h
      cases h
    | ok ver =>
      have hset : r.set n v
          = ({ r with
                _fields := dictSet
                  (dictSet r._fields (_convert_name n) (setCoerce (_convert_name n) v))
                  "Metadata-Version" (.str ver),
                version := some ver }, Option.none) := by
        simp [DistributionMetadata.set, hbv]
      rw [hset]
      exact ⟨ver, rfl, dictGet_dictSet_self _ _ _⟩
  · intro r n h
    by_cases hk : r._fields.any (fun p => p.1 = n)
    · cases hbv : _best_version (dictDel r._fields n) with
      | error e' =>
        have : (r.delitem n).2 = some e' := by
          simp [DistributionMetadata.delitem, hk, hbv]
        rw [this] at h
        cases h
      | ok ver =>
        have hdel : r.delitem n
            = ({ r with
                  _fields := dictSet (dictDel r._fields n)
                    "Metadata-Version" (.str ver),
                  version := some ver }, Option.none) := by
          simp [DistributionMetadata.delitem, hk, hbv]
        rw [hdel]
        exact ⟨ver, rfl, dictGet_dictSet_self _ _ _⟩
    · have : (r.delitem n).2 = some (.keyError n) := by
        simp [DistributionMetadata.delitem, hk]
      rw [this] at h
      cases h

/-- C9 witness: a successful set on an empty record establishes the
Metadata-Version entry. -/
theorem mutation_reestablishes_metadata_version_witness :
    ∃ ver,
      ((DistributionMetadata.init false []).set "Name" (.str "pkg")).1.version
          = some ver
        ∧ dictGet ((DistributionMetadata.init false []).set "Name"
            (.str "pkg")).1._fields "Metadata-Version" = some (.str ver) :=
  mutation_reestablishes_metadata_version.1
    (DistributionMetadata.init false []) "Name" (.str "pkg") rfl

/- ----------------------------------------------------------------
   C5: version inference tiers and the Requires-Dist promotion.
   ---------------------------------------------------------------- -/

/-- C5: the inferred version is the lowest tier whose marker set meets the
present keys — 1.0 with no markers, 1.1 with a 1.1 marker, 1.2 with a 1.2
marker, and MetadataConflictError when both kinds are present; moreover
setting Requires-Dist on a record holding only 1.0 fields succeeds and
raises the version to 1.2. -/
theorem best_version_tiers_and_requires_dist :
    (∀ fields : List (String × FieldVal),
      (_has_marker (fields.map Prod.fst) _314_MARKERS = false →
        _has_marker (fields.map Prod.fst) _345_MARKERS = false →
        _best_version fields = .ok "1.0")
      ∧ (_has_marker (fields.map Prod.fst) _314_MARKERS = true →
        _has_marker (fields.map Prod.fst) _345_MARKERS = false →
        _best_version fields = .ok "1.1")
      ∧ (_has_marker (fields.map Prod.fst) _314_MARKERS = false →
        _has_marker (fields.map Prod.fst) _345_MARKERS = true →
        _best_version fields = .ok "1.2")
      ∧ (_has_marker (fields.map Prod.fst) _314_MARKERS = true →
        _has_marker (fields.map Prod.fst) _345_MARKERS = true →
        _best_version fields
          = .error (.metadataConflictError "You used both 1.1 and 1.2 fields")))
    ∧ (∀ (r : DistributionMetadata) (v : FieldVal),
      (∀ k ∈ r._fields.map Prod.fst, k ∈ _241_FIELDS) →
      (r.set "Requires-Dist" v).2 = Option.none
        ∧ (r.set "Requires-Dist" v).1.version = some "1.2") := by
  constructor
  · intro fields
    refine ⟨?_, ?_, ?_, ?_⟩ <;> intro hx hy <;>
      simp [_best_version, hx, hy, PKG_INFO_PREFERRED_VERSION]
  · intro r v h
    have hconv : _convert_name "Requires-Dist" = "Requires-Dist" := rfl
    have h11 : _has_marker
        ((dictSet r._fields "Requires-Dist"
          (setCoerce "Requires-Dist" v)).map Prod.fst) _314_MARKERS = false := by
      apply List.any_eq_false.mpr
      intro mk hmk
      simp only [decide_eq_true_eq]
      rw [mem_keys_dictSet]
      rintro (rfl | hin)
      · exact absurd hmk (by decide)
      · have hmem := h mk hin
        fin_cases hmk <;> revert hmem <;> decide
    have h12 : _has_marker
        ((dictSet r._fields "Requires-Dist"
          (setCoerce "Requires-Dist" v)).map Prod.fst) _345_MARKERS = true := by
      apply List.any_eq_true.mpr
      refine ⟨"Requires-Dist", by decide, ?_⟩
      simp only [decide_eq_true_eq]
      exact (mem_keys_dictSet _ _ _ _).mpr (Or.inl rfl)
    have hbv : _best_version
        (dictSet r._fields "Requires-Dist" (setCoerce "Requires-Dist" v))
          = .ok "1.2" := by
      simp [_best_version, h11, h12]
    constructor
    · simp [DistributionMetadata.set, hconv, hbv]
    · simp [DistributionMetadata.set, hconv, hbv]

/-- C5 witness: the tier rules at concrete field sets, and the promotion on
a concrete 1.0-only record. -/
theorem best_version_tiers_and_requires_dist_witness :
    _best_version [("Name", .str "pkg")] = .ok "1.0"
      ∧ _best_version [("Requires", .list ["x"])] = .ok "1.1"
      ∧ _best_version [("Requires-Dist", .list ["x"])] = .ok "1.2"
      ∧ _best_version [("Requires", .list ["x"]), ("Requires-Dist", .list ["y"])]
          = .error (.metadataConflictError "You used both 1.1 and 1.2 fields")
      ∧ ((⟨[("Name", .str "pkg")], some "1.0", false, []⟩ :
            DistributionMetadata).set "Requires-Dist" (.list ["y"])).1.version
          = some "1.2" := by
  refine ⟨?_, ?_, ?_, ?_, ?_⟩
  · exact ((best_version_tiers_and_requires_dist.1 _).1) (by decide) (by decide)
  · exact ((best_version_tiers_and_requires_dist.1 _).2.1) (by decide) (by decide)
  · exact ((best_version_tiers_and_requires_dist.1 _).2.2.1) (by decide) (by decide)
  · exact ((best_version_tiers_and_requires_dist.1 _).2.2.2) (by decide) (by decide)
  · exact (best_version_tiers_and_requires_dist.2 _ _ (by decide)).2

/- ----------------------------------------------------------------
   C6: scalar marker filtering in get.
   ---------------------------------------------------------------- -/

/-- A variable table whose sys.platform entry is the given string. -/
def envSys (p : String) : VarEnv := ⟨p, "2.6", "2.6.1", "posix", "v", "m"⟩

/-- A platform-dependant record whose Home-page field carries the marker
value from the spec's example. -/
def rMarker : DistributionMetadata :=
  ⟨[("Home-page", .str "linux; sys.platform == 'linux2'")], some "1.0",
   true, []⟩

/-- C6 counterexample: with sys.platform = "win32" the marker is false, and
get returns None — not the scalar default "UNKNOWN" that an absent field
yields — so a false marker does not behave exactly as if the field were
absent. -/
theorem get_false_marker_returns_none_cex :
    DistributionMetadata.get (envSys "win32") rMarker "Home-page"
        = .ok FieldVal.none
      ∧ _default_value "Home-page" = .str "UNKNOWN"
      ∧ FieldVal.none ≠ FieldVal.str "UNKNOWN" := by
  refine ⟨rfl, rfl, ?_⟩
  decide

/-- C6 amended: for every platform-dependent record and every scalar-text
field (not unicode, list or element category) whose stored value splits at
one semicolon into a bare value and a marker, when the marker interprets to
a boolean, get returns the bare value if the marker is true and None
(Python None, not the scalar default "UNKNOWN") if it is false; in
particular, for every value of the variable table's sys.platform, get on
the field holding "linux; sys.platform == 'linux2'" returns "linux"
exactly when sys.platform equals "linux2", else None. -/
theorem get_marker_scalar_filtering :
    (∀ (env : VarEnv) (r : DistributionMetadata)
      (name v val mkr : String) (b : Bool),
      r.platform_dependant = true →
      dictGet r._fields (_convert_name name) = some (.str v) →
      _convert_name name ∉ _UNICODEFIELDS →
      _convert_name name ∉ _LISTFIELDS →
      _convert_name name ∉ _ELEMENTSFIELD →
      pySplit ';' v = [val, mkr] →
      _interpret mkr r.execution_context env = .ok b →
      DistributionMetadata.get env r name
        = .ok (if b then FieldVal.str val else FieldVal.none))
    ∧ (∀ p : String,
      DistributionMetadata.get (envSys p) rMarker "Home-page"
        = .ok (if p == "linux2" then .str "linux" else FieldVal.none)) := by
  constructor
  · intro env r name v val mkr b hpd hget hU hL hE hsplit hint
    have hlen : (splitChar ';' v.data).length = 2 := by
      have hmapped := congrArg List.length hsplit
      simpa [pySplit] using hmapped
    have hcount : v.data.count ';' = 1 := by
      have := length_splitChar ';' v.data
      omega
    have hmem : ';' ∈ v.data := List.count_pos_iff.mp (by omega)
    have hcontains : v.data.contains ';' = true :=
      List.elem_eq_true_of_mem hmem
    cases b <;>
      simp [DistributionMetadata.get, hget, hU, hL, hE, getScalarTail,
        _platform, hpd, hcontains, hmem, hsplit, hint, ok_bind]
  · intro p
    have L1 : _interpret ([' ','s','y','s','.','p','l','a','t','f','o','r','m',
          ' ','=','=',' ','\'','l','i','n','u','x','2','\''].asString)
          [] (envSys p)
        = if p == "linux2" then .ok true else .ok false := rfl
    cases hb : p == "linux2" <;>
      simp +decide [DistributionMetadata.get, getScalarTail, _platform, dictGet,
        rMarker, _convert_name, _default_value, L1, hb, pySplit,
        splitChar] <;> rfl

/-- C6 witness: the general filtering rule applied to the concrete record
holding "linux; sys.platform == 'linux2'", once with a true marker (the
bare value comes back) and once with a false marker (None comes back). -/
theorem get_marker_scalar_filtering_witness :
    DistributionMetadata.get (envSys "linux2") rMarker "Home-page"
        = .ok (.str "linux")
      ∧ DistributionMetadata.get (envSys "win32") rMarker "Home-page"
          = .ok FieldVal.none := by
  constructor
  · exact get_marker_scalar_filtering.1 (envSys "linux2") rMarker "Home-page"
      "linux; sys.platform == 'linux2'" "linux" " sys.platform == 'linux2'"
      true rfl rfl (by decide) (by decide) (by decide) rfl rfl
  · exact get_marker_scalar_filtering.1 (envSys "win32") rMarker "Home-page"
      "linux; sys.platform == 'linux2'" "linux" " sys.platform == 'linux2'"
      false rfl rfl (by decide) (by decide) (by decide) rfl rfl

/- ----------------------------------------------------------------
   C4: left-to-right grouping of "a and b or c".
   ---------------------------------------------------------------- -/

/-- C4: a marker token stream of the shape A and B or C — three
comparisons chained by "and" then "or", no parentheses — evaluates to
(a and b) or c: the "or" wraps the whole completed "A and B" as its left
operand.  The operand tokens may be any values that the parser does not
treat as keywords (not "and"/"or"/"in"/"not", and the operator token not
the dot). -/
theorem chain_and_or_left_grouping (ctx : List (String × String))
    (env : VarEnv) (la pa ra lb pb rb lc pc rc : String) (a b c : Bool)
    (hla1 : la ≠ "and") (hla2 : la ≠ "or") (hla3 : la ≠ "in") (hla4 : la ≠ "not")
    (hlb1 : lb ≠ "and") (hlb2 : lb ≠ "or") (hlb3 : lb ≠ "in") (hlb4 : lb ≠ "not")
    (hlc1 : lc ≠ "and") (hlc2 : lc ≠ "or") (hlc3 : lc ≠ "in") (hlc4 : lc ≠ "not")
    (hpa : pa ≠ ".") (hpb : pb ≠ ".") (hpc : pc ≠ ".")
    (hra1 : ra ≠ "in") (hra2 : ra ≠ "not")
    (hrb1 : rb ≠ "in") (hrb2 : rb ≠ "not")
    (hrc1 : rc ≠ "in") (hrc2 : rc ≠ "not")
    (hA : _Operation.call ctx env ⟨some la, some pa, some ra⟩ = .ok a)
    (hB : _Operation.call ctx env ⟨some lb, some pb, some rb⟩ = .ok b)
    (hC : _Operation.call ctx env ⟨some lc, some pc, some rc⟩ = .ok c) :
    interpretTokens
      [⟨.NAME, la⟩, ⟨.OP, pa⟩, ⟨.STRING, ra⟩, ⟨.NAME, "and"⟩,
       ⟨.NAME, lb⟩, ⟨.OP, pb⟩, ⟨.STRING, rb⟩, ⟨.NAME, "or"⟩,
       ⟨.NAME, lc⟩, ⟨.OP, pc⟩, ⟨.STRING, rc⟩, ⟨.ENDMARKER, ""⟩] ctx env
      = .ok ((a && b) || c) := by
  have e1 : eat ⟨[], true⟩ ⟨.NAME, la⟩
      = .ok ⟨[.op ⟨some la, Option.none, Option.none⟩], false⟩ := by
    simp +decide [eat, attachFresh, applyTok, tokAccum, tokOpSet, emptyOp,
      hla1, hla2, hla3, hla4]
  have e2 : eat ⟨[.op ⟨some la, Option.none, Option.none⟩], false⟩ ⟨.OP, pa⟩
      = .ok ⟨[.op ⟨some la, some pa, Option.none⟩], false⟩ := by
    simp +decide [eat, attachFresh, applyTok, tokAccum, tokOpSet, hpa]
  have e3 : eat ⟨[.op ⟨some la, some pa, Option.none⟩], false⟩ ⟨.STRING, ra⟩
      = .ok ⟨[.op ⟨some la, some pa, some ra⟩], false⟩ := by
    simp +decide [eat, attachFresh, applyTok, tokAccum, tokOpSet, hra1, hra2]
  have e4 : eat ⟨[.op ⟨some la, some pa, some ra⟩], false⟩ ⟨.NAME, "and"⟩
      = .ok ⟨[.andN (.op ⟨some la, some pa, some ra⟩) Option.none], true⟩ := rfl
  have e5 : eat ⟨[.andN (.op ⟨some la, some pa, some ra⟩) Option.none], true⟩
        ⟨.NAME, lb⟩
      = .ok ⟨[.andN (.op ⟨some la, some pa, some ra⟩)
               (some ⟨some lb, Option.none, Option.none⟩)], false⟩ := by
    simp +decide [eat, attachFresh, applyTok, tokAccum, tokOpSet, emptyOp,
      hlb1, hlb2, hlb3, hlb4]
  have e6 : eat ⟨[.andN (.op ⟨some la, some pa, some ra⟩)
               (some ⟨some lb, Option.none, Option.none⟩)], false⟩ ⟨.OP, pb⟩
      = .ok ⟨[.andN (.op ⟨some la, some pa, some ra⟩)
               (some ⟨some lb, some pb, Option.none⟩)], false⟩ := by
    simp +decide [eat, attachFresh, applyTok, tokAccum, tokOpSet, hpb]
  have e7 : eat ⟨[.andN (.op ⟨some la, some pa, some ra⟩)
               (some ⟨some lb, some pb, Option.none⟩)], false⟩ ⟨.STRING, rb⟩
      = .ok ⟨[.andN (.op ⟨some la, some pa, some ra⟩)
               (some ⟨some lb, some pb, some rb⟩)], false⟩ := by
    simp +decide [eat, attachFresh, applyTok, tokAccum, tokOpSet, hrb1, hrb2]
  have e8 : eat ⟨[.andN (.op ⟨some la, some pa, some ra⟩)
               (some ⟨some lb, some pb, some rb⟩)], false⟩ ⟨.NAME, "or"⟩
      = .ok ⟨[.orN (.andN (.op ⟨some la, some pa, some ra⟩)
                     (some ⟨some lb, some pb, some rb⟩)) Option.none], true⟩ := rfl
  have e9 : eat ⟨[.orN (.andN (.op ⟨some la, some pa, some ra⟩)
                     (some ⟨some lb, some pb, some rb⟩)) Option.none], true⟩
        ⟨.NAME, lc⟩
      = .ok ⟨[.orN (.andN (.op ⟨some la, some pa, some ra⟩)
                     (some ⟨some lb, some pb, some rb⟩))
               (some ⟨some lc, Option.none, Option.none⟩)], false⟩ := by
    simp +decide [eat, attachFresh, applyTok, tokAccum, tokOpSet, emptyOp,
      hlc1, hlc2, hlc3, hlc4]
  have e10 : eat ⟨[.orN (.andN (.op ⟨some la, some pa, some ra⟩)
                     (some ⟨some lb, some pb, some rb⟩))
               (some ⟨some lc, Option.none, Option.none⟩)], false⟩ ⟨.OP, pc⟩
      = .ok ⟨[.orN (.andN (.op ⟨some la, some pa, some ra⟩)
                     (some ⟨some lb, some pb, some rb⟩))
               (some ⟨some lc, some pc, Option.none⟩)], false⟩ := by
    simp +decide [eat, attachFresh, applyTok, tokAccum, tokOpSet, hpc]
  have e11 : eat ⟨[.orN (.andN (.op ⟨some la, some pa, some ra⟩)
                     (some ⟨some lb, some pb, some rb⟩))
               (some ⟨some lc, some pc, Option.none⟩)], false⟩ ⟨.STRING, rc⟩
      = .ok ⟨[.orN (.andN (.op ⟨some la, some pa, some ra⟩)
                     (some ⟨some lb, some pb, some rb⟩))
               (some ⟨some lc, some pc, some rc⟩)], false⟩ := by
    simp +decide [eat, attachFresh, applyTok, tokAccum, tokOpSet, hrc1, hrc2]
  have e12 : eat ⟨[.orN (.andN (.op ⟨some la, some pa, some ra⟩)
                     (some ⟨some lb, some pb, some rb⟩))
               (some ⟨some lc, some pc, some rc⟩)], false⟩ ⟨.ENDMARKER, ""⟩
      = .ok ⟨[.orN (.andN (.op ⟨some la, some pa, some ra⟩)
                     (some ⟨some lb, some pb, some rb⟩))
               (some ⟨some lc, some pc, some rc⟩)], true⟩ := rfl
  have hbind : ∀ {α β : Type} (x : α) (f : α → Except PyErr β),
      (Except.ok x >>= f : Except PyErr β) = f x := fun x f => rfl
  simp only [interpretTokens, List.foldlM, e1, e2, e3, e4, e5, e6, e7, e8, e9,
    e10, e11, e12, hbind]
  cases a <;> cases b <;> cases c <;>
    simp [chainResult, evalNode, hA, hB, hC, hbind]

/-- C4 witness: with the builtin variables os.name = "posix",
sys.platform = "linux2", python_version = "2.6", the chained marker
evaluates through the left grouping to true. -/
theorem chain_and_or_left_grouping_witness :
    interpretTokens
      [⟨.NAME, "os.name"⟩, ⟨.OP, "=="⟩, ⟨.STRING, "'posix'"⟩, ⟨.NAME, "and"⟩,
       ⟨.NAME, "sys.platform"⟩, ⟨.OP, "=="⟩, ⟨.STRING, "'linux2'"⟩, ⟨.NAME, "or"⟩,
       ⟨.NAME, "python_version"⟩, ⟨.OP, "=="⟩, ⟨.STRING, "'2.6'"⟩,
       ⟨.ENDMARKER, ""⟩] [] (envSys "linux2")
      = .ok true := by
  have h := chain_and_or_left_grouping [] (envSys "linux2")
    "os.name" "==" "'posix'" "sys.platform" "==" "'linux2'"
    "python_version" "==" "'2.6'" true true true
    (by decide) (by decide) (by decide) (by decide)
    (by decide) (by decide) (by decide) (by decide)
    (by decide) (by decide) (by decide) (by decide)
    (by decide) (by decide) (by decide)
    (by decide) (by decide) (by decide) (by decide) (by decide) (by decide)
    rfl rfl rfl
  exact h

/- ----------------------------------------------------------------
   C8: the Description write encoding and read stripping are inverses.
   ---------------------------------------------------------------- -/

theorem error_bind {α β : Type} (e : PyErr) (f : α → Except PyErr β) :
    (Except.error e >>= f : Except PyErr β) = .error e := rfl

theorem removeCont_expand (l : List Char) :
    removeLineCont (expandDescription l) = l := by
  induction l with
  | nil => rfl
  | cons c rest ih =>
    by_cases hc : c = '\n'
    · subst hc
      simp [expandDescription, removeLineCont, ih]
    · simp [expandDescription, removeLineCont, hc, ih]

/-- C8: the write-side Description encoding (newline becomes newline, seven
spaces, pipe) and the read-side stripping applied by set are exact
inverses: any description string, embedded newlines included, survives
encode-then-strip byte for byte; equivalently, feeding the written form
back through set's Description coercion restores the original value. -/
theorem description_roundtrip (s : String) :
    removeLineContStr (descriptionWriteEncode s) = s
      ∧ setCoerce "Description" (.str (descriptionWriteEncode s)) = .str s := by
  have h1 : removeLineContStr (descriptionWriteEncode s) = s := by
    cases s with
    | mk data => exact congrArg List.asString (removeCont_expand data)
  refine ⟨h1, ?_⟩
  simp +decide [setCoerce, _encode_field, encodeFieldStr, h1]

/- ----------------------------------------------------------------
   C7: evaluation discipline of one Operation.
   ---------------------------------------------------------------- -/

/-- C7: an Operation evaluates to a boolean only when exactly one side is a
quoted string literal and the other names a _VARS variable; two literals,
or two non-literals, fail with the operation SyntaxError, and a lone
literal whose other side is not a recognized variable fails with a
NameError. -/
theorem operation_literal_variable_discipline (ctx : List (String × String))
    (env : VarEnv) (o : _Operation) :
    (∀ b, o.call ctx env = .ok b →
      _is_string o.left ≠ _is_string o.right
        ∧ (_is_string o.left = true → _is_name env o.right = true)
        ∧ (_is_string o.right = true → _is_name env o.left = true))
    ∧ (_is_string o.left = true → _is_string o.right = true →
        ∃ m, o.call ctx env = .error (.syntaxError m))
    ∧ (_is_string o.left = false → _is_string o.right = false →
        ∃ m, o.call ctx env = .error (.syntaxError m))
    ∧ (_is_string o.left = true → _is_string o.right = false →
        _is_name env o.right = false →
        ∃ m, o.call ctx env = .error (.nameError m))
    ∧ (_is_string o.left = false → _is_string o.right = true →
        _is_name env o.left = false →
        ∃ m, o.call ctx env = .error (.nameError m)) := by
  refine ⟨?_, ?_, ?_, ?_, ?_⟩
  · intro b hb
    by_cases h1 : _is_string o.left <;> by_cases h2 : _is_string o.right
    · simp [_Operation.call, h1, h2, error_bind] at hb
    · by_cases h3 : _is_name env o.right
      · exact ⟨by simp [h1, h2], fun _ => h3,
          fun hr => absurd hr (by simp [h2])⟩
      · simp [_Operation.call, h1, h2, h3, error_bind] at hb
    · by_cases h3 : _is_name env o.left
      · exact ⟨by simp [h1, h2], fun hl => absurd hl (by simp [h1]),
          fun _ => h3⟩
      · simp [_Operation.call, h1, h2, h3, error_bind] at hb
    · simp [_Operation.call, h1, h2, error_bind] at hb
  · intro h1 h2
    exact ⟨"This operation is not supported : \"" ++ opRepr o ++ "\"",
      by simp [_Operation.call, h1, h2, error_bind]⟩
  · intro h1 h2
    exact ⟨"This operation is not supported : \"" ++ opRepr o ++ "\"",
      by simp [_Operation.call, h1, h2, error_bind]⟩
  · intro h1 h2 h3
    exact ⟨o.right.getD "None",
      by simp [_Operation.call, h1, h2, h3, error_bind]⟩
  · intro h1 h2 h3
    exact ⟨o.left.getD "None",
      by simp [_Operation.call, h1, h2, h3, error_bind]⟩

/-- C7 witness: the discipline at concrete operations: two literals fail
with a SyntaxError, a literal against an unknown variable name fails with
a NameError. -/
theorem operation_literal_variable_discipline_witness :
    (∃ m, _Operation.call [] (envSys "linux2")
        ⟨some "'a'", some "==", some "'b'"⟩ = .error (.syntaxError m))
      ∧ (∃ m, _Operation.call [] (envSys "linux2")
        ⟨some "foo", some "==", some "'b'"⟩ = .error (.nameError m)) := by
  constructor
  · exact (operation_literal_variable_discipline [] (envSys "linux2")
      ⟨some "'a'", some "==", some "'b'"⟩).2.1 (by decide) (by decide)
  · exact (operation_literal_variable_discipline [] (envSys "linux2")
      ⟨some "foo", some "==", some "'b'"⟩).2.2.2.2 (by decide) (by decide) (by decide)

/- ----------------------------------------------------------------
   Error classification for the marker pipeline: nothing in tokenizing,
   parsing or evaluating a marker can raise a ValueError — the only
   ValueError in the module is the two-way unpack in _platform.
   ---------------------------------------------------------------- -/

set_option maxHeartbeats 1000000

def PyErr.isValueErr : PyErr → Bool
  | .valueError _ => true
  | _ => false

theorem eat_no_valueErr (st : ChainState) (t : Token) (e : PyErr)
    (h : eat st t = .error e) : e.isValueErr = false := by
  simp only [eat] at h
  iterate 6 (all_goals (try split at h))
  all_goals (cases h <;> rfl)

theorem opcall_no_valueErr (ctx : List (String × String)) (env : VarEnv)
    (o : _Operation) (e : PyErr) (h : o.call ctx env = .error e) :
    e.isValueErr = false := by
  simp only [_Operation.call] at h
  rcases bind_error_cases _ _ _ h with he | ⟨a, ha, hf⟩
  · iterate 4 (all_goals (try split at he))
    all_goals (cases he <;> rfl)
  · iterate 4 (all_goals (try split at hf))
    all_goals (try simp only [_operate] at hf)
    iterate 8 (all_goals (try split at hf))
    all_goals (cases hf <;> rfl)

theorem evalNode_no_valueErr (ctx : List (String × String)) (env : VarEnv) :
    ∀ (n : ChainNode) (e : PyErr), evalNode ctx env n = .error e →
      e.isValueErr = false := by
  intro n
  induction n with
  | op o => intro e h; exact opcall_no_valueErr _ _ _ _ h
  | andN l r ihl =>
    intro e h
    simp only [evalNode] at h
    rcases bind_error_cases _ _ _ h with he | ⟨b, hb, hf⟩
    · exact ihl _ he
    · split at hf
      · split at hf
        · exact opcall_no_valueErr _ _ _ _ hf
        · cases hf
          rfl
      · cases hf
  | orN l r ihl =>
    intro e h
    simp only [evalNode] at h
    rcases bind_error_cases _ _ _ h with he | ⟨b, hb, hf⟩
    · exact ihl _ he
    · split at hf
      · cases hf
      · split at hf
        · exact opcall_no_valueErr _ _ _ _ hf
        · cases hf
          rfl

theorem chainResult_no_valueErr (ctx : List (String × String)) (env : VarEnv) :
    ∀ (ops : List ChainNode) (e : PyErr),
      chainResult ctx env ops = .error e → e.isValueErr = false := by
  intro ops
  induction ops with
  | nil => intro e h; cases h
  | cons n rest ih =>
    intro e h
    simp only [chainResult] at h
    rcases bind_error_cases _ _ _ h with he | ⟨b, hb, hf⟩
    · exact evalNode_no_valueErr _ _ _ _ he
    · split at hf
      · exact ih _ hf
      · cases hf

theorem foldeat_no_valueErr :
    ∀ (toks : List Token) (st : ChainState) (e : PyErr),
      List.foldlM eat st toks = .error e → e.isValueErr = false := by
  intro toks
  induction toks with
  | nil =>
    intro st e h
    simp only [List.foldlM] at h
    cases h
  | cons t ts ih =>
    intro st e h
    simp only [List.foldlM] at h
    rcases bind_error_cases _ _ _ h with he | ⟨s', hs, hf⟩
    · exact eat_no_valueErr _ _ _ he
    · exact ih _ _ hf

theorem interpret_no_valueErr (m : String) (ctx : List (String × String))
    (env : VarEnv) (e : PyErr) (h : _interpret m ctx env = .error e) :
    e.isValueErr = false := by
  simp only [_interpret, interpretTokens] at h
  rcases bind_error_cases _ _ _ h with he | ⟨st, hs, hf⟩
  · exact foldeat_no_valueErr _ _ _ he
  · exact chainResult_no_valueErr _ _ _ _ hf

/- ----------------------------------------------------------------
   C3: marker errors during get are propagated, not swallowed.
   ---------------------------------------------------------------- -/

/-- A platform-dependant record whose Home-page value carries an
unevaluable marker: "foo" is not a recognized variable. -/
def rBadMarker : DistributionMetadata :=
  ⟨[("Home-page", .str "x; foo == 'bar'")], some "1.0", true, []⟩

/-- A platform-dependant record whose License value carries a malformed
marker: both sides are string literals. -/
def rBadMarker2 : DistributionMetadata :=
  ⟨[("License", .str "y; 'a' == 'b'")], some "1.0", true, []⟩

/-- C3 counterexample: get on a field whose marker is unevaluable raises
the NameError to the caller instead of treating the value as filtered
out (no get result is produced at all). -/
theorem get_marker_error_propagates_cex :
    DistributionMetadata.get (envSys "linux2") rBadMarker "Home-page"
      = .error (.nameError "foo") := rfl

/-- C3 amended: for a platform-dependent record and a scalar field value
with a marker suffix whose interpretation raises, get propagates that very
error to the caller; nothing in get or _platform catches it. -/
theorem get_marker_error_propagates (env : VarEnv)
    (r : DistributionMetadata) (name v val mkr : String) (e : PyErr)
    (hpd : r.platform_dependant = true)
    (hget : dictGet r._fields (_convert_name name) = some (.str v))
    (hU : _convert_name name ∉ _UNICODEFIELDS)
    (hL : _convert_name name ∉ _LISTFIELDS)
    (hE : _convert_name name ∉ _ELEMENTSFIELD)
    (hsplit : pySplit ';' v = [val, mkr])
    (hint : _interpret mkr r.execution_context env = .error e) :
    DistributionMetadata.get env r name = .error e := by
  have hlen : (splitChar ';' v.data).length = 2 := by
    have hmapped := congrArg List.length hsplit
    simpa [pySplit] using hmapped
  have hcount : v.data.count ';' = 1 := by
    have := length_splitChar ';' v.data
    omega
  have hmem : ';' ∈ v.data := List.count_pos_iff.mp (by omega)
  have hcontains : v.data.contains ';' = true :=
    List.elem_eq_true_of_mem hmem
  simp [DistributionMetadata.get, hget, hU, hL, hE, getScalarTail, _platform,
    hpd, hcontains, hmem, hsplit, hint, error_bind]

/-- C3 witness: the amended theorem at a concrete record whose marker has
two string literals, so evaluation raises the operation SyntaxError, which
get surfaces. -/
theorem get_marker_error_propagates_witness :
    DistributionMetadata.get (envSys "linux2") rBadMarker2 "License"
      = .error (.syntaxError
          "This operation is not supported : \"'a' == 'b'\"") := by
  exact get_marker_error_propagates (envSys "linux2") rBadMarker2 "License"
    "y; 'a' == 'b'" "y" " 'a' == 'b'"
    (.syntaxError "This operation is not supported : \"'a' == 'b'\"")
    rfl rfl (by decide) (by decide) (by decide) rfl rfl

/- ----------------------------------------------------------------
   C10: the two-way split assumption in _platform.
   ---------------------------------------------------------------- -/

/-- A platform-dependant record whose Home-page value has two semicolons. -/
def rSplit : DistributionMetadata :=
  ⟨[("Home-page", .str "a;b;c")], some "1.0", true, []⟩

/-- C10: get on a platform-dependent record and a scalar field whose stored
value has two or more semicolons fails with the unpack ValueError, because
the two-way split of the value cannot be performed; with at most one
semicolon the split step never fails — any failure get can produce there
is not a ValueError. -/
theorem get_semicolon_split_arity (env : VarEnv) (r : DistributionMetadata)
    (name v : String)
    (hpd : r.platform_dependant = true)
    (hget : dictGet r._fields (_convert_name name) = some (.str v))
    (hU : _convert_name name ∉ _UNICODEFIELDS)
    (hL : _convert_name name ∉ _LISTFIELDS)
    (hE : _convert_name name ∉ _ELEMENTSFIELD) :
    (2 ≤ v.data.count ';' →
      DistributionMetadata.get env r name
        = .error (.valueError "too many values to unpack"))
    ∧ (v.data.count ';' ≤ 1 →
      ∀ s, DistributionMetadata.get env r name ≠ .error (.valueError s)) := by
  have hred : DistributionMetadata.get env r name
      = getScalarTail env r (.str v) := by
    simp [DistributionMetadata.get, hget, hU, hL, hE]
  constructor
  · intro hcnt
    have hlen : 3 ≤ (pySplit ';' v).length := by
      simp only [pySplit, List.length_map]
      rw [length_splitChar]
      omega
    obtain ⟨a, b, cc, t, hshape⟩ := list_shape3 _ hlen
    have hmem : ';' ∈ v.data := List.count_pos_iff.mp (by omega)
    have hcontains : v.data.contains ';' = true :=
      List.elem_eq_true_of_mem hmem
    rw [hred]
    simp [getScalarTail, _platform, hpd, hcontains, hmem, hshape, error_bind]
  · intro hcnt s hcontra
    rw [hred] at hcontra
    by_cases hc : ';' ∈ v.data
    · have hcpos : 0 < v.data.count ';' := List.count_pos_iff.mpr hc
      have hlen2 : (pySplit ';' v).length = 2 := by
        simp only [pySplit, List.length_map]
        rw [length_splitChar]
        omega
      obtain ⟨a, b, hshape⟩ := list_shape2 _ hlen2
      have hcontains : v.data.contains ';' = true :=
        List.elem_eq_true_of_mem hc
      simp only [getScalarTail, _platform, hpd] at hcontra
      rcases bind_error_cases _ _ _ hcontra with he | ⟨p, hp, hf⟩
      · simp only [Bool.not_true, if_false, ite_false, hcontains,
          Bool.false_eq_true, hshape] at he
        simp [hc, hshape] at he
        rcases bind_error_cases _ _ _ he with he2 | ⟨bb, hbb, hff⟩
        · have hnv := interpret_no_valueErr _ _ _ _ he2
          simp [PyErr.isValueErr] at hnv
        · cases hff
      · split at hf <;> cases hf
    · have hcontains : v.data.contains ';' = false := by
        by_contra hcc
        exact hc (List.mem_of_elem_eq_true (by
          cases hcl : v.data.contains ';'
          · exact absurd hcl hcc
          · exact hcl))
      simp [getScalarTail, _platform, hpd, hcontains, hc, ok_bind] at hcontra

/-- C10 witness: a two-semicolon value makes get fail with the unpack
ValueError; the one-semicolon marker value never produces a ValueError. -/
theorem get_semicolon_split_arity_witness :
    DistributionMetadata.get (envSys "linux2") rSplit "Home-page"
        = .error (.valueError "too many values to unpack")
      ∧ DistributionMetadata.get (envSys "linux2") rMarker "Home-page"
          ≠ .error (.valueError "too many values to unpack") := by
  constructor
  · exact (get_semicolon_split_arity (envSys "linux2") rSplit "Home-page"
      "a;b;c" rfl rfl (by decide) (by decide) (by decide)).1 (by decide)
  · exact (get_semicolon_split_arity (envSys "linux2") rMarker "Home-page"
      "linux; sys.platform == 'linux2'" rfl rfl (by decide) (by decide)
      (by decide)).2 (by decide) _
